import Mathlib

/-!
Verification of the reportflow drilldown pipeline: the hand-rolled CSV
parser, the drilldown table builder (title extraction, header synthesis,
score filtering) and the renderer's row normalisation with
adjacent-duplicate blanking, shallowly embedded from the TypeScript source.
-/

namespace ReportFlow

/-- State of the character-by-character CSV scanner: completed rows, the
cells of the row being built, the accumulating cell value, and whether the
scanner is inside a quoted span. -/
structure ScanState where
  rows : List (List String)
  current : List String
  value : String
  inQuotes : Bool
deriving Repr, DecidableEq

/-- Whitespace trimming of both ends of a character list. -/
def trimChars (l : List Char) : List Char :=
  ((l.dropWhile Char.isWhitespace).reverse.dropWhile Char.isWhitespace).reverse

/-- The JavaScript string trim used by the parser, over the embedded string. -/
def jsTrim (s : String) : String :=
  String.mk (trimChars s.data)

/-- The JavaScript lowercase conversion used by the header comparison. -/
def jsToLower (s : String) : String :=
  String.mk (s.data.map Char.toLower)

/-- Post-processing of the raw scanned rows: trim every cell again and drop
rows whose cells are all empty. -/
def cleanRows (rows : List (List String)) : List (List String) :=
  (rows.map (fun row => row.map jsTrim)).filter
    (fun row => row.any (fun cell => cell.length != 0))

/-- Strip a single leading byte-order mark, if present. -/
def stripBom : List Char → List Char
  | [] => []
  | c :: rest => if c = '\uFEFF' then rest else c :: rest

/-- The scanner loop of parseCsv. Carriage returns are skipped before any
other case is considered. Inside quotes a doubled quote appends a literal
quote and consumes both characters, a lone quote leaves the quoted span, and
any other character is appended. Outside quotes a quote opens a span, a comma
pushes the trimmed value as a cell, a newline additionally pushes the row,
and any other character is appended. End of input pushes the trimmed pending
value and the pending row, then post-processes. -/
def runCsv (st : ScanState) : List Char → List (List String)
  | [] => cleanRows (st.rows ++ [st.current ++ [jsTrim st.value]])
  | c :: rest =>
    if c = '\r' then runCsv st rest
    else if st.inQuotes then
      if c = '"' then
        match rest with
        | '"' :: rest2 => runCsv { st with value := st.value.push '"' } rest2
        | [] => runCsv { st with inQuotes := false } []
        | c2 :: rest2 => runCsv { st with inQuotes := false } (c2 :: rest2)
      else runCsv { st with value := st.value.push c } rest
    else if c = '"' then runCsv { st with inQuotes := true } rest
    else if c = ',' then
      runCsv { st with current := st.current ++ [jsTrim st.value], value := "" } rest
    else if c = '\n' then
      runCsv { st with rows := st.rows ++ [st.current ++ [jsTrim st.value]],
                       current := [], value := "" } rest
    else runCsv { st with value := st.value.push c } rest

/-- The scanner's initial state. -/
def initState : ScanState := { rows := [], current := [], value := "", inQuotes := false }

/-- parseCsv from the reviewer app: strip the BOM and scan. -/
def parseCsv (text : String) : List (List String) :=
  runCsv initState (stripBom text.data)

/-- The drilldown table produced by the builder. -/
structure DrilldownTable where
  title : Option String
  columns : List String
  rows : List (List String)
deriving Repr, DecidableEq

/-- The three failures of the drilldown table builder. -/
inductive BuildError where
  | emptyInput
  | missingHeader
  | noDataRows
deriving Repr, DecidableEq

/-- Decidable equality for build results, to evaluate the builder on
concrete inputs. -/
instance : DecidableEq (Except BuildError DrilldownTable) := fun a b =>
  match a, b with
  | .ok x, .ok y => decidable_of_iff (x = y) (by simp)
  | .error x, .error y => decidable_of_iff (x = y) (by simp)
  | .ok _, .error _ => isFalse (by simp)
  | .error _, .ok _ => isFalse (by simp)

/-- Title detection condition: the first row has at most one cell, or every
cell after the first is empty. -/
def hasSoloFirstCell (firstRow : List String) : Bool :=
  decide (firstRow.length ≤ 1) || (firstRow.drop 1).all (fun cell => cell.length == 0)

/-- Title extraction: when the first row qualifies as a solo cell, its first
value becomes the title and the row is removed from further processing. -/
def extractTitle (rows : List (List String)) : Option String × List (List String) :=
  match rows with
  | [] => (none, [])
  | firstRow :: rest =>
    if hasSoloFirstCell firstRow then (firstRow.head?, rest)
    else (none, firstRow :: rest)

/-- Header synthesis: an empty header cell is replaced by the synthetic
label "Column i" with a 1-based index. -/
def synthHeaders (headerRow : List String) : List String :=
  headerRow.mapIdx (fun idx header => if header = "" then "Column " ++ toString (idx + 1) else header)

/-- Index of the first header whose trimmed, lowercased text is "score". -/
def scoreIndex (headers : List String) : Option Nat :=
  headers.findIdx? (fun header => jsToLower (jsTrim header) == "score")

/-- Score filtering: when a score column exists, keep only the data rows
whose cell at the score index (empty when the row is too short) is
non-empty; otherwise keep all data rows. -/
def applyScoreFilter (headers : List String) (dataRows : List (List String)) :
    List (List String) :=
  match scoreIndex headers with
  | none => dataRows
  | some i => dataRows.filter (fun row => (row.getD i "").length != 0)

/-- buildDrilldownTable on an already-parsed grid: fail on an empty grid,
extract an optional title, fail when no header row remains, synthesise
headers, fail when no data rows remain, and apply the score filter. -/
def buildFromGrid (rows : List (List String)) : Except BuildError DrilldownTable :=
  if rows.isEmpty then .error .emptyInput
  else
    match (extractTitle rows).2 with
    | [] => .error .missingHeader
    | headerRow :: dataRows =>
      let headers := synthHeaders headerRow
      if dataRows.isEmpty then .error .noDataRows
      else .ok { title := (extractTitle rows).1, columns := headers,
                 rows := applyScoreFilter headers dataRows }

/-- buildDrilldownTable from the reviewer app: parse then build. -/
def buildDrilldownTable (text : String) : Except BuildError DrilldownTable :=
  buildFromGrid (parseCsv text)

/-- The data rows the builder filters: what remains after title extraction
and removal of the header row. -/
def dataRowsOf (text : String) : List (List String) :=
  ((extractTitle (parseCsv text)).2).tail

/-- One cell of the renderer's normalisation: a missing value becomes the
empty string, a present value is trimmed. -/
def sanitizeCell (row : List String) (idx : Nat) : String :=
  match row[idx]? with
  | none => ""
  | some value => jsTrim value

/-- sanitizeRows from the drilldown renderer: each row is realigned to the
columns, position by position. -/
def sanitizeRows (columns : List String) (rows : List (List String)) :
    List (List String) :=
  rows.map (fun row => columns.mapIdx (fun idx _ => sanitizeCell row idx))

/-- The display grid of the drilldown renderer: an empty cell stays empty,
and a cell equal to the same column's cell of the immediately preceding row
is blanked; otherwise the cell is shown as is. -/
def displayRows (normalizedRows : List (List String)) : List (List String) :=
  normalizedRows.mapIdx (fun rowIdx row =>
    row.mapIdx (fun colIdx cell =>
      if cell = "" then ""
      else
        match (if rowIdx = 0 then none else normalizedRows[rowIdx - 1]?).bind
            (fun prev => prev[colIdx]?) with
        | some prev => if prev = cell then "" else cell
        | none => cell))

/-- Lookup of one cell of a grid, as an optional value. -/
def cellAt (grid : List (List String)) (rowIdx colIdx : Nat) : Option String :=
  (grid[rowIdx]?).bind (fun row => row[colIdx]?)

/-- The raw value the renderer emits in the data-value attribute: the
normalised cell, or the empty string when the position is out of range. -/
def rawCellValue (grid : List (List String)) (rowIdx colIdx : Nat) : String :=
  (cellAt grid rowIdx colIdx).getD ""

/-- The normalised grid of a table, as the renderer computes it. -/
def normalizedOf (t : DrilldownTable) : List (List String) :=
  sanitizeRows t.columns t.rows

/-- The display grid of a table, as the renderer computes it. -/
def displayGridOf (t : DrilldownTable) : List (List String) :=
  displayRows (normalizedOf t)

/-! Helper lemmas about the embedded strings. -/

theorem push_append_mk (v : String) (c : Char) (l : List Char) :
    (v.push c) ++ String.mk l = v ++ String.mk (c :: l) := by
  cases v with
  | mk d =>
    show String.mk ((d ++ [c]) ++ l) = String.mk (d ++ (c :: l))
    rw [List.append_assoc]
    rfl

theorem append_mk_nil (v : String) : v ++ String.mk [] = v := by
  cases v with
  | mk d =>
    show String.mk (d ++ []) = String.mk d
    rw [List.append_nil]

/-! Step lemmas for the scanner, one per branch of the source loop. -/

theorem runCsv_nil (st : ScanState) :
    runCsv st [] = cleanRows (st.rows ++ [st.current ++ [jsTrim st.value]]) := rfl

theorem runCsv_cr (st : ScanState) (rest : List Char) :
    runCsv st ('\r' :: rest) = runCsv st rest := by
  rw [runCsv.eq_def]
  simp

theorem runCsv_quoted_push (st : ScanState) (c : Char) (rest : List Char)
    (h : st.inQuotes = true) (hq : c ≠ '"') (hr : c ≠ '\r') :
    runCsv st (c :: rest) = runCsv { st with value := st.value.push c } rest := by
  rw [runCsv.eq_def]
  simp [h, hq, hr]

theorem runCsv_quoted_dq (st : ScanState) (rest : List Char) (h : st.inQuotes = true) :
    runCsv st ('"' :: '"' :: rest) = runCsv { st with value := st.value.push '"' } rest := by
  rw [runCsv.eq_def]
  simp [h]

theorem runCsv_quoted_close (st : ScanState) (l : List Char)
    (h : st.inQuotes = true) (hl : l.head? ≠ some '"') :
    runCsv st ('"' :: l) = runCsv { st with inQuotes := false } l := by
  match l with
  | [] =>
    rw [runCsv.eq_def]
    simp [h]
  | c :: r =>
    have hc : c ≠ '"' := by intro hc; exact hl (by simp [hc])
    rw [runCsv.eq_def]
    simp only [h]
    simp

theorem runCsv_open (st : ScanState) (rest : List Char) (h : st.inQuotes = false) :
    runCsv st ('"' :: rest) = runCsv { st with inQuotes := true } rest := by
  rw [runCsv.eq_def]
  simp [h]

theorem runCsv_comma (st : ScanState) (rest : List Char) (h : st.inQuotes = false) :
    runCsv st (',' :: rest) =
      runCsv { st with current := st.current ++ [jsTrim st.value], value := "" } rest := by
  rw [runCsv.eq_def]
  simp [h]

theorem runCsv_newline (st : ScanState) (rest : List Char) (h : st.inQuotes = false) :
    runCsv st ('\n' :: rest) =
      runCsv { st with rows := st.rows ++ [st.current ++ [jsTrim st.value]],
                       current := [], value := "" } rest := by
  rw [runCsv.eq_def]
  simp [h]

theorem runCsv_plain (st : ScanState) (c : Char) (rest : List Char)
    (h : st.inQuotes = false) (h1 : c ≠ '\r') (h2 : c ≠ '"') (h3 : c ≠ ',')
    (h4 : c ≠ '\n') :
    runCsv st (c :: rest) = runCsv { st with value := st.value.push c } rest := by
  rw [runCsv.eq_def]
  simp [h, h1, h2, h3, h4]

/-- Scanning a quote-free chunk while inside a quoted span only extends the
accumulating value: carriage returns are dropped, every other character is
appended, and no cell or row boundary is produced. -/
theorem runCsv_quoted_chunk (t : List Char) : ∀ (st : ScanState) (l : List Char),
    st.inQuotes = true → (∀ c ∈ t, c ≠ '"') →
    runCsv st (t ++ l) =
      runCsv { st with value := st.value ++ String.mk (t.filter (fun c => c != '\r')) } l := by
  induction t with
  | nil =>
    intro st l h _
    simp [append_mk_nil]
  | cons c t ih =>
    intro st l h ht
    have hq : c ≠ '"' := ht c (by simp)
    by_cases hr : c = '\r'
    · subst hr
      rw [List.cons_append, runCsv_cr, ih st l h (fun d hd => ht d (by simp [hd]))]
      simp
    · rw [List.cons_append, runCsv_quoted_push st c _ h hq hr,
        ih { st with value := st.value.push c } l h (fun d hd => ht d (by simp [hd]))]
      simp [List.filter_cons, hr, push_append_mk]

/-- Decomposition of a successful build into its stages. -/
theorem buildFromGrid_ok (grid : List (List String)) (t : DrilldownTable)
    (h : buildFromGrid grid = .ok t) :
    ∃ headerRow dataRows, (extractTitle grid).2 = headerRow :: dataRows ∧
      t.title = (extractTitle grid).1 ∧
      t.columns = synthHeaders headerRow ∧
      t.rows = applyScoreFilter (synthHeaders headerRow) dataRows := by
  unfold buildFromGrid at h
  split at h
  · exact absurd h (by simp)
  · split at h
    · exact absurd h (by simp)
    · rename_i headerRow dataRows hw
      split at h
      · exact absurd h (by simp)
      · simp only [Except.ok.injEq] at h
        subst h
        exact ⟨headerRow, dataRows, hw, rfl, rfl, rfl⟩

/-- C5: on a successful build, when a score column exists at index i, the
result's rows are exactly the data rows whose cell in that column is
non-empty, in original order; when no score header exists, all data rows
are kept unchanged. -/
theorem score_filter_spec (text : String) (t : DrilldownTable)
    (h : buildDrilldownTable text = .ok t) :
    (∀ i, scoreIndex t.columns = some i →
      t.rows = (dataRowsOf text).filter (fun row => (row.getD i "").length != 0)) ∧
    (scoreIndex t.columns = none → t.rows = dataRowsOf text) := by
  obtain ⟨headerRow, dataRows, hw, ht, hc, hrows⟩ := buildFromGrid_ok (parseCsv text) t h
  have hd : dataRowsOf text = dataRows := by
    unfold dataRowsOf
    rw [hw]
    rfl
  constructor
  · intro i hi
    rw [hc] at hi
    rw [hrows, hd]
    unfold applyScoreFilter
    rw [hi]
  · intro hi
    rw [hc] at hi
    rw [hrows, hd]
    unfold applyScoreFilter
    rw [hi]

/-- C5 witness: a concrete build where the score column at index 1 filters
the data rows. -/
theorem score_filter_spec_witness :
    ([["b", "1"]] : List (List String)) =
      (dataRowsOf ",score\nb,1").filter (fun row => (row.getD 1 "").length != 0) := by
  have hp : parseCsv ",score\nb,1" = [["", "score"], ["b", "1"]] := by decide
  have hb : buildDrilldownTable ",score\nb,1" =
      .ok { title := none, columns := ["Column 1", "score"], rows := [["b", "1"]] } := by
    show buildFromGrid (parseCsv ",score\nb,1") = _
    rw [hp]
    decide
  exact (score_filter_spec ",score\nb,1" _ hb).1 1 (by decide)

/-- C10: when a score column exists at index i, every data row whose length
is at most i is dropped by the build's score filter: a row with no cell at
the score position counts as having an empty score. -/
theorem short_rows_filtered_out (text : String) (t : DrilldownTable)
    (h : buildDrilldownTable text = .ok t) (i : Nat)
    (hi : scoreIndex t.columns = some i) :
    ∀ row ∈ dataRowsOf text, row.length ≤ i → row ∉ t.rows := by
  obtain ⟨headerRow, dataRows, hw, ht, hc, hrows⟩ := buildFromGrid_ok (parseCsv text) t h
  intro row _ hlen hin
  rw [hc] at hi
  rw [hrows] at hin
  unfold applyScoreFilter at hin
  rw [hi] at hin
  have hp := (List.mem_filter.mp hin).2
  rw [List.getD_eq_default row "" hlen] at hp
  simp at hp

/-- C10 witness: a one-cell data row is dropped when the score column is at
index 1. -/
theorem short_rows_filtered_out_witness :
    (["b"] : List String) ∉
      ({ title := none, columns := ["Column 1", "score"], rows := [] } : DrilldownTable).rows := by
  have hp : parseCsv ",score\nb" = [["", "score"], ["b"]] := by decide
  have hb : buildDrilldownTable ",score\nb" =
      .ok { title := none, columns := ["Column 1", "score"], rows := [] } := by
    show buildFromGrid (parseCsv ",score\nb") = _
    rw [hp]
    decide
  exact short_rows_filtered_out ",score\nb" _ hb 1 (by decide) ["b"] (by decide) (by decide)

/-- C1 counterexample: a grid with a score header and one data row whose
score cell is empty builds successfully into a table with no rows; it does
not fail with NoDataRowsError. -/
theorem noDataRows_not_raised_cex :
    buildDrilldownTable ",score\nb," =
      .ok { title := none, columns := ["Column 1", "score"], rows := [] } ∧
    buildDrilldownTable ",score\nb," ≠ .error .noDataRows := by
  have hp : parseCsv ",score\nb," = [["", "score"], ["b", ""]] := by decide
  have hb : buildDrilldownTable ",score\nb," =
      .ok { title := none, columns := ["Column 1", "score"], rows := [] } := by
    show buildFromGrid (parseCsv ",score\nb,") = _
    rw [hp]
    decide
  exact ⟨hb, by rw [hb]; decide⟩

/-- C1 amended: when a score column exists and at least one data row is
present but every data row's score cell is empty, build succeeds and
returns a table whose rows sequence is empty, rather than failing with
NoDataRowsError. -/
theorem allScoresEmpty_returns_empty_rows (grid : List (List String))
    (headerRow : List String) (dataRows : List (List String)) (i : Nat)
    (hw : (extractTitle grid).2 = headerRow :: dataRows)
    (hi : scoreIndex (synthHeaders headerRow) = some i)
    (hne : dataRows ≠ [])
    (hall : ∀ row ∈ dataRows, row.getD i "" = "") :
    buildFromGrid grid =
      .ok { title := (extractTitle grid).1, columns := synthHeaders headerRow, rows := [] } := by
  have hg : grid ≠ [] := by
    intro hgg
    rw [hgg] at hw
    exact absurd hw (by simp [extractTitle])
  have hfilter : applyScoreFilter (synthHeaders headerRow) dataRows = [] := by
    unfold applyScoreFilter
    rw [hi]
    refine List.filter_eq_nil_iff.mpr (fun row hrow => ?_)
    rw [hall row hrow]
    simp
  unfold buildFromGrid
  rw [hw]
  have h1 : grid.isEmpty = false := by
    rw [List.isEmpty_eq_false]
    exact hg
  have h2 : dataRows.isEmpty = false := by
    rw [List.isEmpty_eq_false]
    exact hne
  rw [h1]
  simp [h2, hfilter]

/-- C1 witness: the amended statement applied to the concrete grid of the
counterexample. -/
theorem allScoresEmpty_returns_empty_rows_witness :
    buildFromGrid [["", "score"], ["b", ""]] =
      .ok { title := none, columns := ["Column 1", "score"], rows := [] } := by
  have h := allScoresEmpty_returns_empty_rows [["", "score"], ["b", ""]] ["", "score"]
    [["b", ""]] 1 (by decide) (by decide) (by decide) (by decide)
  exact h.trans (by decide)

/-- C6: when the first row of a grid has at most one non-empty cell and is
followed by a multi-cell row, build takes the first row's single value as
the title, removes the row, takes the next row as the column headers, and
replaces each empty header cell with the synthetic label for its 1-based
position. -/
theorem title_extraction_spec (r0 r1 : List String) (rest : List (List String))
    (h0 : r0.length ≤ 1 ∨ ∀ c ∈ r0.drop 1, c = "")
    (_hmulti : 2 ≤ r1.length) :
    extractTitle (r0 :: r1 :: rest) = (r0.head?, r1 :: rest) ∧
    (∀ j cell, r1[j]? = some cell →
      (synthHeaders r1)[j]? =
        some (if cell = "" then "Column " ++ toString (j + 1) else cell)) ∧
    (∀ t, buildFromGrid (r0 :: r1 :: rest) = .ok t →
      t.title = r0.head? ∧ t.columns = synthHeaders r1) := by
  have hs : hasSoloFirstCell r0 = true := by
    unfold hasSoloFirstCell
    rcases h0 with h | h
    · simp [h]
    · rw [Bool.or_eq_true]
      right
      rw [List.all_eq_true]
      intro c hc
      rw [h c hc]
      rfl
  have hext : extractTitle (r0 :: r1 :: rest) = (r0.head?, r1 :: rest) := by
    unfold extractTitle
    simp [hs]
  refine ⟨hext, ?_, ?_⟩
  · intro j cell hj
    unfold synthHeaders
    rw [List.getElem?_mapIdx, hj]
    rfl
  · intro t ht
    obtain ⟨headerRow, dataRows, hw, htt, hcc, _⟩ := buildFromGrid_ok _ _ ht
    rw [hext] at hw htt
    rw [List.cons.injEq] at hw
    exact ⟨htt, by rw [hcc, hw.1]⟩

/-- C6 witness: a one-cell first row becomes the title and the second row,
with an empty header cell, becomes the columns with a synthetic label. -/
theorem title_extraction_spec_witness :
    extractTitle [["T"], ["", "b"], ["x", "y"]] = (some "T", [["", "b"], ["x", "y"]]) ∧
    (synthHeaders ["", "b"])[0]? = some "Column 1" := by
  have h := title_extraction_spec ["T"] ["", "b"] [["x", "y"]] (Or.inl (by decide)) (by decide)
  exact ⟨h.1, (h.2.1 0 "" rfl).trans (by decide)⟩

/-- C2 counterexample: build keeps data rows ragged: a one-cell data row
stays one cell long even though the table has two columns. -/
theorem table_rows_ragged_cex :
    buildDrilldownTable "A,B\nx" =
      .ok { title := none, columns := ["A", "B"], rows := [["x"]] } ∧
    (["x"] : List String).length ≠ (["A", "B"] : List String).length := by
  have hp : parseCsv "A,B\nx" = [["A", "B"], ["x"]] := by decide
  constructor
  · show buildFromGrid (parseCsv "A,B\nx") = _
    rw [hp]
    decide
  · decide

/-- C2 amended: the exact-length invariant holds of the renderer's
normalised grid, not of the built table: every row of sanitizeRows has
exactly as many cells as the columns sequence, and a position beyond the
end of the underlying row is filled with the empty string. -/
theorem sanitizeRows_realigns (columns : List String) (rows : List (List String)) :
    (∀ r ∈ sanitizeRows columns rows, r.length = columns.length) ∧
    (∀ i j row, rows[i]? = some row → j < columns.length → row.length ≤ j →
      cellAt (sanitizeRows columns rows) i j = some "") := by
  constructor
  · intro r hrm
    unfold sanitizeRows at hrm
    obtain ⟨row, _, hre⟩ := List.mem_map.mp hrm
    rw [← hre]
    exact List.length_mapIdx
  · intro i j row hi hj hlen
    unfold cellAt sanitizeRows
    rw [List.getElem?_map, hi]
    simp only [Option.map_some', Option.some_bind]
    rw [List.getElem?_mapIdx, List.getElem?_eq_getElem hj]
    simp only [Option.map_some']
    unfold sanitizeCell
    rw [List.getElem?_eq_none hlen]

/-- C2 witness: the normalised form of a one-cell row under two columns has
two cells and an empty second cell. -/
theorem sanitizeRows_realigns_witness :
    cellAt (sanitizeRows ["A", "B"] [["x"]]) 0 1 = some "" :=
  (sanitizeRows_realigns ["A", "B"] [["x"]]).2 0 1 ["x"] rfl (by decide) (by decide)

/-- C7: in the renderer's display grid, when two adjacent rows hold an
identical non-empty value in the same column of the normalised grid, the
second occurrence is rendered blank while the raw value emitted in the
cell's data-value attribute is unchanged. -/
theorem dedup_blanks_second_occurrence (t : DrilldownTable) (rowIdx colIdx : Nat)
    (v : String)
    (h1 : cellAt (normalizedOf t) rowIdx colIdx = some v)
    (h2 : cellAt (normalizedOf t) (rowIdx + 1) colIdx = some v)
    (hv : v ≠ "") :
    cellAt (displayGridOf t) (rowIdx + 1) colIdx = some "" ∧
    rawCellValue (normalizedOf t) (rowIdx + 1) colIdx = v := by
  refine ⟨?_, ?_⟩
  · obtain ⟨r2, hr2, hc2⟩ : ∃ r2, (normalizedOf t)[rowIdx + 1]? = some r2 ∧
        r2[colIdx]? = some v := by
      unfold cellAt at h2
      cases hg : (normalizedOf t)[rowIdx + 1]? with
      | none => rw [hg] at h2; exact absurd h2 (by simp)
      | some r => rw [hg] at h2; exact ⟨r, rfl, by simpa using h2⟩
    unfold displayGridOf displayRows cellAt
    rw [List.getElem?_mapIdx, hr2]
    simp only [Option.map_some', Option.some_bind]
    rw [List.getElem?_mapIdx, hc2]
    simp only [Option.map_some']
    rw [if_neg hv, if_neg (Nat.succ_ne_zero rowIdx), Nat.add_sub_cancel]
    unfold cellAt at h1
    rw [h1]
    simp
  · unfold rawCellValue
    rw [h2]
    rfl

/-- C7 witness: a repeated value in the single column of a two-row table is
blanked on its second occurrence while its raw value is kept. -/
theorem dedup_blanks_second_occurrence_witness :
    cellAt (displayGridOf { title := none, columns := ["A"], rows := [["x"], ["x"]] }) 1 0 =
      some "" ∧
    rawCellValue (normalizedOf { title := none, columns := ["A"], rows := [["x"], ["x"]] }) 1 0 =
      "x" :=
  dedup_blanks_second_occurrence { title := none, columns := ["A"], rows := [["x"], ["x"]] }
    0 0 "x" (by decide) (by decide) (by decide)

/-- C3 counterexample: a carriage return inside a quoted span is dropped,
not appended verbatim: the quoted cell comes out as "ab", not as the
three-character value with an embedded carriage return. -/
theorem cr_in_quotes_dropped_cex :
    parseCsv "\"a\rb\"" = [["ab"]] ∧ parseCsv "\"a\rb\"" ≠ [["a\rb"]] := by
  constructor
  · decide
  · decide

/-- C3 amended: the scanner drops a carriage return before the quote state
is consulted, so inside a quoted span a carriage return is discarded, and
every character other than a quote and a carriage return is appended
verbatim to the accumulating value. -/
theorem cr_in_quotes_dropped :
    (∀ (st : ScanState) (rest : List Char), st.inQuotes = true →
      runCsv st ('\r' :: rest) = runCsv st rest) ∧
    (∀ (st : ScanState) (c : Char) (rest : List Char), st.inQuotes = true →
      c ≠ '"' → c ≠ '\r' →
      runCsv st (c :: rest) = runCsv { st with value := st.value.push c } rest) :=
  ⟨fun st rest _ => runCsv_cr st rest,
   fun st c rest h hq hr => runCsv_quoted_push st c rest h hq hr⟩

/-- C3 witness: the amended statement evaluated on a concrete quoted state. -/
theorem cr_in_quotes_dropped_witness :
    runCsv { rows := [], current := [], value := "a", inQuotes := true } ['\r', 'b'] =
      runCsv { rows := [], current := [], value := "a", inQuotes := true } ['b'] :=
  cr_in_quotes_dropped.1 { rows := [], current := [], value := "a", inQuotes := true } ['b'] rfl

/-- C4: the scanner is total and never raises: end of input flushes the
final pending cell and row from any state, and from inside an unterminated
quoted span the whole remaining input is accumulated into the pending cell
and flushed. -/
theorem parse_flushes_at_eoi :
    (∀ st : ScanState,
      runCsv st [] = cleanRows (st.rows ++ [st.current ++ [jsTrim st.value]])) ∧
    (∀ (st : ScanState) (t : List Char), st.inQuotes = true → (∀ c ∈ t, c ≠ '"') →
      runCsv st t =
        cleanRows (st.rows ++ [st.current ++
          [jsTrim (st.value ++ String.mk (t.filter (fun c => c != '\r')))]])) := by
  constructor
  · exact runCsv_nil
  · intro st t h ht
    have hc := runCsv_quoted_chunk t st [] h ht
    rw [List.append_nil] at hc
    rw [hc, runCsv_nil]

/-- C4 witness: an unterminated quote at end of input still flushes the
accumulated cell. -/
theorem parse_flushes_at_eoi_witness :
    runCsv { rows := [], current := [], value := "x", inQuotes := true } ['a'] = [["xa"]] :=
  (parse_flushes_at_eoi.2 { rows := [], current := [], value := "x", inQuotes := true }
    ['a'] rfl (by decide)).trans (by decide)

/-- C8: a comma inside a quoted span is not treated as a delimiter: scanning
a quote-free chunk containing a comma between an opening and a closing quote
only extends the current cell's value and produces no cell or row boundary. -/
theorem quoted_comma_single_cell (st : ScanState) (t l : List Char)
    (h : st.inQuotes = false) (ht : ∀ c ∈ t, c ≠ '"') (_hcomma : ',' ∈ t)
    (hl : l.head? ≠ some '"') :
    runCsv st ('"' :: (t ++ '"' :: l)) =
      runCsv { st with value := st.value ++ String.mk (t.filter (fun c => c != '\r')) } l := by
  rw [runCsv_open st _ h]
  rw [runCsv_quoted_chunk t { st with inQuotes := true } ('"' :: l) rfl ht]
  rw [runCsv_quoted_close _ l rfl hl]
  rw [← h]

/-- C8 witness: a quoted field with an embedded comma parses as one cell. -/
theorem quoted_comma_single_cell_witness :
    runCsv initState ('"' :: (['a', ',', 'b'] ++ '"' :: [])) = [["a,b"]] :=
  (quoted_comma_single_cell initState ['a', ',', 'b'] [] rfl (by decide) (by decide)
    (by decide)).trans (by decide)

/-- C9: inside a quoted span a doubled quote emits one literal quote into
the cell's value and is consumed as one unit. -/
theorem doubled_quote_emits_literal (st : ScanState) (rest : List Char)
    (h : st.inQuotes = true) :
    runCsv st ('"' :: '"' :: rest) = runCsv { st with value := st.value.push '"' } rest :=
  runCsv_quoted_dq st rest h

/-- C9 witness: a doubled quote inside a quoted field yields a single
literal quote in the parsed cell. -/
theorem doubled_quote_emits_literal_witness :
    runCsv { rows := [], current := [], value := "a", inQuotes := true } ['"', '"'] =
      [["a\""]] :=
  (doubled_quote_emits_literal { rows := [], current := [], value := "a", inQuotes := true }
    [] rfl).trans (by decide)

end ReportFlow
